import Mathlib

/-!
Shallow embedding of the stripe-service repository (TypeScript).

Source files embedded here:
- src/src/stripeService.ts : the StripeService class with its three public
  operations (createCheckoutSession, getCheckoutSession, handleWebhook) and
  the private per-event-type webhook handlers.
- src/src/types/stripe-types.ts : the input types and the webhook event union.
- src/unnamed/part_000 : customError.ts (base CustomError with a default
  status code of 500) and errors.ts (the six named error subclasses, each
  passing an explicit code to the base constructor).

Modelling conventions:
- The Stripe SDK client is external; it is embedded as a record of function
  fields (sessionsCreate, sessionsRetrieve, constructEvent), so a concrete
  client can be supplied in witnesses while theorems quantify over all
  client behaviours.
- JavaScript falsiness of the validated fields is embedded as `= 0` for the
  numeric amount and `= ""` for the string fields: an absent field and a
  falsy field fail the same `!x` check in the source.
- Thrown exceptions become `Except` errors carrying `CustomError` values;
  a try/catch block becomes an inner function for the try body plus an
  outer function that maps every inner error to the rethrown error.
- `console.log` calls in the dispatch phase are embedded as an explicit
  list of `LogEntry` values, so that handler invocations are observable.
- The line-item object literal with its rest-spread is embedded as a JS
  object (an ordered key/value list) built by setField/spreadFields with
  last-wins override semantics, matching the shallow object spread of the
  source: a spread field named like a base field replaces its value.
- The UUID v4 generated per createCheckoutSession call is embedded as an
  explicit `uuid` argument (the source draws it from the uuid library).
-/

/-- Embeds customError.ts: an error value with a message, an HTTP-style
status code, and a class name tag. -/
structure CustomError where
  message : String
  code : Nat
  name : String
deriving DecidableEq

/-- Embeds `new CustomError(message, code)` with an explicit code argument
(the `super(message, code)` call of every subclass). The base constructor
then sets `this.name`; subclasses overwrite it with their own class name. -/
def CustomError.make (message : String) (code : Nat) : CustomError :=
  { message := message, code := code, name := "CustomError" }

/-- Embeds `new CustomError(message)` relying on the declared default
`code: number = 500` of the base constructor. No error subclass in
errors.ts takes this path: each one passes an explicit code. -/
def CustomError.makeDefault (message : String) : CustomError :=
  CustomError.make message 500

/-- Embeds `new StripeInitializationError(message)`: `super(message, 400)`
then `this.name = "StripeInitializationError"`. -/
def mkStripeInitializationError (message : String) : CustomError :=
  { CustomError.make message 400 with name := "StripeInitializationError" }

/-- Embeds `new MissingRequiredParameterError(message)`: `super(message, 422)`
then `this.name = "MissingRequiredParameterError"`. -/
def mkMissingRequiredParameterError (message : String) : CustomError :=
  { CustomError.make message 422 with name := "MissingRequiredParameterError" }

/-- Embeds `new CheckoutSessionCreationError(message)`: `super(message, 400)`
then `this.name = "CheckoutSessionCreationError"`. -/
def mkCheckoutSessionCreationError (message : String) : CustomError :=
  { CustomError.make message 400 with name := "CheckoutSessionCreationError" }

/-- Embeds `new SessionRetrievalError(message)`: `super(message, 400)`
then `this.name = "SessionRetrievalError"`. -/
def mkSessionRetrievalError (message : String) : CustomError :=
  { CustomError.make message 400 with name := "SessionRetrievalError" }

/-- Embeds `new WebhookSignatureVerificationError(message)`: `super(message, 400)`
then `this.name = "WebhookSignatureVerificationError"`. -/
def mkWebhookSignatureVerificationError (message : String) : CustomError :=
  { CustomError.make message 400 with name := "WebhookSignatureVerificationError" }

/-- Embeds `new WebhookProcessingError(message)`: `super(message, 400)`
then `this.name = "WebhookProcessingError"`. -/
def mkWebhookProcessingError (message : String) : CustomError :=
  { CustomError.make message 400 with name := "WebhookProcessingError" }

/-- Embeds the fields of Stripe.PaymentIntent read by the handlers. -/
structure PaymentIntent where
  id : String
  amount : Int
  currency : String
  created : Int
  status : String
  receipt_email : Option String
deriving DecidableEq

/-- Embeds the fields of Stripe.Charge read by the handlers. -/
structure Charge where
  id : String
  amount : Int
  paid : Bool
  status : String
  payment_method : Option String
deriving DecidableEq

/-- Embeds the fields of Stripe.Checkout.Session read by this module:
the identifiers returned by createCheckoutSession plus the fields logged
by handleCheckoutSessionCompleted. The source reads `session.url` through
a non-null assertion (`session.url!`), so url is embedded as a plain
string supplied by the processor. -/
structure CheckoutSession where
  id : String
  url : String
  customer : Option String
  payment_status : String
  amount_total : Option Int
  currency : Option String
  client_reference_id : Option String
deriving DecidableEq

/-- Embeds the `data.object` payload of a webhook event: one of the three
domain object shapes of stripe-types.ts, or an opaque envelope payload for
events outside the five declared interfaces (the Stripe.EventBase arm of
the StripeWebhookEvent union). -/
inductive EventData where
  | paymentIntent : PaymentIntent → EventData
  | charge : Charge → EventData
  | checkoutSession : CheckoutSession → EventData
  | otherObject : EventData
deriving DecidableEq

/-- Embeds StripeWebhookEvent from stripe-types.ts: a tagged union keyed by
the `type` string. The source dispatches on `event.type` alone and casts
the event to the matching interface without checking `data`, so type and
data are independent fields here, exactly as permissive as the casts. -/
structure StripeWebhookEvent where
  type : String
  data : EventData
deriving DecidableEq

/-- Embeds the `price_data` object value of the line item built by
createCheckoutSession (`product_data: { name }` is flattened to the one
name field the source sets). -/
structure PriceData where
  currency : String
  product_name : String
  unit_amount : Int
deriving DecidableEq

/-- Embeds a JavaScript value stored under a key of the line-item object:
a string, a number, or the price_data object value. An extra line-item
field spread into the object can carry any of these, in particular a
number under the key quantity or a whole replacement price_data object. -/
inductive JsValue where
  | str : String → JsValue
  | num : Int → JsValue
  | priceData : PriceData → JsValue
deriving DecidableEq

/-- Embeds a JS object as an ordered list of key/value fields; the line
item sent to the processor is one such object. -/
abbrev LineItemObject := List (String × JsValue)

/-- Embeds assigning one key of a JS object: an existing key keeps its
position and takes the new value, a new key is appended, exactly as a
later entry of an object literal or spread overrides an earlier one. -/
def setField (fields : List (String × JsValue)) (key : String)
    (v : JsValue) : List (String × JsValue) :=
  if key ∈ fields.map Prod.fst then
    fields.map (fun p => if p.1 = key then (key, v) else p)
  else fields ++ [(key, v)]

/-- Embeds the shallow object spread: each field of the spread object is
assigned in order over the base fields, so a spread field named like a
base field wins (JS last-wins semantics). -/
def spreadFields (base : List (String × JsValue)) :
    List (String × JsValue) → List (String × JsValue)
  | [] => base
  | (key, v) :: rest => spreadFields (setField base key v) rest

/-- Reads a field of a JS object (first binding; the objects built here
from a unique-key literal by setField keep keys unique). -/
def getField : List (String × JsValue) → String → Option JsValue
  | [], _ => none
  | (k, v) :: rest, key => if k = key then some v else getField rest key

/-- Embeds CreateCheckoutSessionInput from stripe-types.ts. The rest-spread
`...otherLineItemData` in createCheckoutSession collects every field beyond
the four named ones; those extra line-item fields are embedded as an open
key/value list of JS values that is later spread into the line-item object
(the declared interface has no extra fields, so for inputs matching the
declared interface this list is empty). -/
structure CreateCheckoutSessionInput where
  amount : Int
  currency : String
  successUrl : String
  cancelUrl : String
  otherLineItemData : List (String × JsValue)
deriving DecidableEq

/-- Embeds GetCheckoutSessionInput from stripe-types.ts. -/
structure GetCheckoutSessionInput where
  sessionId : String
deriving DecidableEq

/-- Embeds the argument object of `stripe.checkout.sessions.create` as
built by createCheckoutSession. -/
structure SessionCreateParams where
  payment_method_types : List String
  line_items : List LineItemObject
  mode : String
  success_url : String
  cancel_url : String
  client_reference_id : String
deriving DecidableEq

/-- Embeds the Stripe SDK client surface used by stripeService.ts. Each
field is one SDK call; a failing call is an `Except.error` carrying the
SDK error message. `constructEvent payload signature secret` is the
signature-verification routine `stripe.webhooks.constructEvent`. -/
structure StripeClient where
  sessionsCreate : SessionCreateParams → Except String CheckoutSession
  sessionsRetrieve : String → Except String CheckoutSession
  constructEvent : String → String → String → Except String StripeWebhookEvent

/-- Embeds the StripeService instance state: the two private fields
assigned in the constructor. -/
structure StripeService where
  stripe : StripeClient
  webhookSecret : String

/-- Embeds the StripeService constructor: both secrets are required
(falsy, i.e. empty, secrets raise StripeInitializationError), then the
SDK client is built from the secret key. `mkClient` stands for
`new Stripe(stripeSecretKey, ...)`. -/
def StripeService.make (mkClient : String → StripeClient)
    (stripeSecretKey webhookSecret : String) : Except CustomError StripeService :=
  if stripeSecretKey = "" then
    .error (mkStripeInitializationError "Stripe secret key is required.")
  else if webhookSecret = "" then
    .error (mkStripeInitializationError "Stripe webhook secret is required.")
  else
    .ok { stripe := mkClient stripeSecretKey, webhookSecret := webhookSecret }

/-- Embeds a failure inside a try block: either an error value thrown by
the validation code of this module, or a failure of the SDK call. -/
inductive OpFailure where
  | thrown : CustomError → OpFailure
  | sdk : String → OpFailure
deriving DecidableEq

/-- Embeds the result object `{ url: session.url!, sessionId: session.id }`
of createCheckoutSession. -/
structure CheckoutSessionResult where
  url : String
  sessionId : String
deriving DecidableEq

/-- Embeds the literal `{CHECKOUT_SESSION_ID}` placeholder (braces written
as escapes). -/
def checkoutSessionIdPlaceholder : String := "\x7bCHECKOUT_SESSION_ID\x7d"

/-- Embeds the `price_data` value of the line-item object literal: the
input currency, the hard-coded placeholder product name, and the input
amount as unit_amount. -/
def priceDataValue (input : CreateCheckoutSessionInput) : JsValue :=
  .priceData
    { currency := input.currency,
      product_name := "Your Product Name",
      unit_amount := input.amount }

/-- Embeds the line-item object literal of createCheckoutSession:
`{ price_data: {...}, quantity: 1, ...otherLineItemData }`. The spread
comes after the two named fields, so an extra field named price_data or
quantity overrides them (last-wins). -/
def lineItemObject (input : CreateCheckoutSessionInput) : LineItemObject :=
  spreadFields
    [("price_data", priceDataValue input), ("quantity", JsValue.num 1)]
    input.otherLineItemData

/-- Embeds the argument object passed to `stripe.checkout.sessions.create`
by createCheckoutSession: card payment method, a single line-item object
built from the input (with the spread extra fields), one-time payment mode,
the success url with the `?session_id={CHECKOUT_SESSION_ID}` template
appended, the cancel url, and the fresh UUID as client_reference_id. -/
def buildSessionCreateParams (input : CreateCheckoutSessionInput)
    (uuid : String) : SessionCreateParams :=
  { payment_method_types := ["card"],
    line_items := [lineItemObject input],
    mode := "payment",
    success_url := input.successUrl ++ "?session_id=" ++ checkoutSessionIdPlaceholder,
    cancel_url := input.cancelUrl,
    client_reference_id := uuid }

/-- Embeds the body of the try block of createCheckoutSession: the
truthiness validation of the four named fields (`!amount` is `= 0` for the
number, `!s` is `= ""` for the strings), then the SDK create call on the
built params, then the result projection. -/
def createCheckoutSessionTry (svc : StripeService)
    (input : CreateCheckoutSessionInput) (uuid : String) :
    Except OpFailure CheckoutSessionResult :=
  if input.amount = 0 ∨ input.currency = "" ∨ input.successUrl = "" ∨ input.cancelUrl = "" then
    .error (.thrown (mkMissingRequiredParameterError
      "Amount, currency, successUrl, and cancelUrl are required."))
  else
    match svc.stripe.sessionsCreate (buildSessionCreateParams input uuid) with
    | .error e => .error (.sdk e)
    | .ok session => .ok { url := session.url, sessionId := session.id }

/-- Embeds StripeService.createCheckoutSession: the catch block maps every
failure of the try body, including the internally thrown
MissingRequiredParameterError, to a fresh CheckoutSessionCreationError. -/
def StripeService.createCheckoutSession (svc : StripeService)
    (input : CreateCheckoutSessionInput) (uuid : String) :
    Except CustomError CheckoutSessionResult :=
  match createCheckoutSessionTry svc input uuid with
  | .ok result => .ok result
  | .error _ => .error (mkCheckoutSessionCreationError "Failed to create checkout session.")

/-- Embeds the body of the try block of getCheckoutSession: the sessionId
truthiness check, then the SDK retrieve call returned unchanged. -/
def getCheckoutSessionTry (svc : StripeService)
    (input : GetCheckoutSessionInput) : Except OpFailure CheckoutSession :=
  if input.sessionId = "" then
    .error (.thrown (mkMissingRequiredParameterError "Session ID is required."))
  else
    match svc.stripe.sessionsRetrieve input.sessionId with
    | .error e => .error (.sdk e)
    | .ok session => .ok session

/-- Embeds StripeService.getCheckoutSession: the catch block maps every
failure of the try body, including the internally thrown
MissingRequiredParameterError, to a fresh SessionRetrievalError. -/
def StripeService.getCheckoutSession (svc : StripeService)
    (input : GetCheckoutSessionInput) : Except CustomError CheckoutSession :=
  match getCheckoutSessionTry svc input with
  | .ok session => .ok session
  | .error _ => .error (mkSessionRetrievalError "Failed to retrieve session.")

/-- Embeds the `console.log` calls of the dispatch phase: one entry per
per-event-type handler invocation carrying the `data.object` payload whose
fields the handler logs, plus the `Unhandled event type` entry of the
default arm. -/
inductive LogEntry where
  | paymentIntentCreated : EventData → LogEntry
  | paymentIntentSucceeded : EventData → LogEntry
  | chargeUpdated : EventData → LogEntry
  | chargeSucceeded : EventData → LogEntry
  | checkoutSessionCompleted : EventData → LogEntry
  | unhandledType : String → LogEntry
deriving DecidableEq

/-- Embeds handlePaymentIntentCreated: logs the payment intent fields and
returns the event unchanged. -/
def handlePaymentIntentCreated (event : StripeWebhookEvent) :
    StripeWebhookEvent × List LogEntry :=
  (event, [.paymentIntentCreated event.data])

/-- Embeds handlePaymentIntentSucceeded: logs the payment intent fields and
returns the event unchanged. -/
def handlePaymentIntentSucceeded (event : StripeWebhookEvent) :
    StripeWebhookEvent × List LogEntry :=
  (event, [.paymentIntentSucceeded event.data])

/-- Embeds handleChargeUpdated: logs the charge fields and returns the
event unchanged. -/
def handleChargeUpdated (event : StripeWebhookEvent) :
    StripeWebhookEvent × List LogEntry :=
  (event, [.chargeUpdated event.data])

/-- Embeds handleChargeSucceeded: logs the charge fields and returns the
event unchanged. -/
def handleChargeSucceeded (event : StripeWebhookEvent) :
    StripeWebhookEvent × List LogEntry :=
  (event, [.chargeSucceeded event.data])

/-- Embeds handleCheckoutSessionCompleted: logs the session fields and
returns the event unchanged. -/
def handleCheckoutSessionCompleted (event : StripeWebhookEvent) :
    StripeWebhookEvent × List LogEntry :=
  (event, [.checkoutSessionCompleted event.data])

/-- The five case labels of the dispatch switch in processWebhookEvent. -/
def recognizedEventTypes : List String :=
  ["payment_intent.created", "payment_intent.succeeded", "charge.updated",
   "charge.succeeded", "checkout.session.completed"]

/-- Embeds processWebhookEvent: the switch over `event.type`. The first
case body wraps its return in `if (event.type === "payment_intent.created")`
with no break after it; since the guard repeats the case label it is always
true, but the fall-through into the next case is kept here as the dead else
branch, mirroring the source statement for statement. The default arm logs
the unhandled type and returns null (none). -/
def processWebhookEvent (event : StripeWebhookEvent) :
    Option StripeWebhookEvent × List LogEntry :=
  if event.type = "payment_intent.created" then
    if event.type = "payment_intent.created" then
      let (e, logs) := handlePaymentIntentCreated event
      (some e, logs)
    else
      -- switch fall-through into the payment_intent.succeeded case
      let (e, logs) := handlePaymentIntentSucceeded event
      (some e, logs)
  else if event.type = "payment_intent.succeeded" then
    let (e, logs) := handlePaymentIntentSucceeded event
    (some e, logs)
  else if event.type = "charge.updated" then
    let (e, logs) := handleChargeUpdated event
    (some e, logs)
  else if event.type = "charge.succeeded" then
    let (e, logs) := handleChargeSucceeded event
    (some e, logs)
  else if event.type = "checkout.session.completed" then
    let (e, logs) := handleCheckoutSessionCompleted event
    (some e, logs)
  else
    (none, [.unhandledType event.type])

/-- Embeds StripeService.handleWebhook. Verification phase: the SDK
constructEvent call; any failure is rethrown as
WebhookSignatureVerificationError with the SDK error interpolated into the
message, and dispatch is never entered (empty log). Dispatch phase:
processWebhookEvent on the verified event; its handlers only log and
return, so the catch that would rethrow WebhookProcessingError never fires
in the embedding, matching the total source handlers. -/
def StripeService.handleWebhook (svc : StripeService)
    (payload signature : String) :
    Except CustomError (Option StripeWebhookEvent) × List LogEntry :=
  match svc.stripe.constructEvent payload signature svc.webhookSecret with
  | .error err =>
      (.error (mkWebhookSignatureVerificationError
        ("Webhook signature verification failed: " ++ err)), [])
  | .ok event =>
      let (processed, logs) := processWebhookEvent event
      (.ok processed, logs)

/-- State-passing form of createCheckoutSession: the method body of the
source contains no assignment to `this.stripe` or `this.webhookSecret`, so
the post-state is the receiver itself. -/
def StripeService.createCheckoutSessionS (svc : StripeService)
    (input : CreateCheckoutSessionInput) (uuid : String) :
    Except CustomError CheckoutSessionResult × StripeService :=
  (svc.createCheckoutSession input uuid, svc)

/-- State-passing form of getCheckoutSession: the method body of the source
contains no assignment to `this.stripe` or `this.webhookSecret`, so the
post-state is the receiver itself. -/
def StripeService.getCheckoutSessionS (svc : StripeService)
    (input : GetCheckoutSessionInput) :
    Except CustomError CheckoutSession × StripeService :=
  (svc.getCheckoutSession input, svc)

/-- State-passing form of handleWebhook: the method body of the source
contains no assignment to `this.stripe` or `this.webhookSecret`, so the
post-state is the receiver itself. -/
def StripeService.handleWebhookS (svc : StripeService)
    (payload signature : String) :
    (Except CustomError (Option StripeWebhookEvent) × List LogEntry) × StripeService :=
  (svc.handleWebhook payload signature, svc)

/-- Checks whether `pat` is a character-wise prefix of `s`. -/
def strSubPrefixOf : List Char → List Char → Bool
  | [], _ => true
  | _ :: _, [] => false
  | a :: as, b :: bs => a == b && strSubPrefixOf as bs

/-- Checks whether `pat` occurs as a contiguous run inside `s`. -/
def hasSubList (pat : List Char) : List Char → Bool
  | [] => strSubPrefixOf pat []
  | c :: rest => strSubPrefixOf pat (c :: rest) || hasSubList pat rest

/-- Checks whether the string `pat` occurs as a literal substring of `s`. -/
def containsSubstr (s pat : String) : Bool :=
  hasSubList pat.data s.data

/-- Concrete checkout session used to instantiate the processor client in
witness checks. -/
def demoSession : CheckoutSession :=
  { id := "cs_test_123", url := "https://pay.example/s/abc",
    customer := some "cus_1", payment_status := "unpaid",
    amount_total := some 500, currency := some "usd",
    client_reference_id := some "u-1" }

/-- Concrete client whose session calls succeed with fixed data. -/
def okClient : StripeClient :=
  { sessionsCreate := fun _ => .ok demoSession,
    sessionsRetrieve := fun sid => .ok { demoSession with id := sid },
    constructEvent := fun _ _ _ => .error "unexpected webhook" }

/-- Concrete client whose signature verification always fails. -/
def badSigClient : StripeClient :=
  { sessionsCreate := fun _ => .error "unused",
    sessionsRetrieve := fun _ => .error "unused",
    constructEvent := fun _ _ _ => .error "No signatures found" }

/-- Concrete client whose signature verification succeeds with the given
event. -/
def eventClient (ev : StripeWebhookEvent) : StripeClient :=
  { sessionsCreate := fun _ => .error "unused",
    sessionsRetrieve := fun _ => .error "unused",
    constructEvent := fun _ _ _ => .ok ev }

/-- Service instance over a concrete client. -/
def demoService (client : StripeClient) : StripeService :=
  { stripe := client, webhookSecret := "whsec_demo" }

/-- Concrete valid createCheckoutSession input. -/
def demoInput : CreateCheckoutSessionInput :=
  { amount := 500, currency := "usd", successUrl := "https://x/ok",
    cancelUrl := "https://x/cancel", otherLineItemData := [] }

/-- Concrete valid input carrying an extra line-item field whose key is
none of the named line-item keys. -/
def demoInputExtra : CreateCheckoutSessionInput :=
  { demoInput with otherLineItemData := [("tax_rates", JsValue.str "txr_1")] }

/-- Concrete valid input whose extra line-item field is named quantity,
so the spread overrides the fixed quantity 1. -/
def demoOverrideInput : CreateCheckoutSessionInput :=
  { demoInput with otherLineItemData := [("quantity", JsValue.num 3)] }

/-- Concrete input with a strictly negative amount. -/
def demoNegInput : CreateCheckoutSessionInput :=
  { demoInput with amount := -250 }

/-- Concrete verified event of an unrecognized type. -/
def invoicePaidEvent : StripeWebhookEvent :=
  { type := "invoice.paid", data := .otherObject }

/-- Concrete verified payment_intent.succeeded event. -/
def piSucceededEvent : StripeWebhookEvent :=
  { type := "payment_intent.succeeded",
    data := .paymentIntent
      { id := "pi_1", amount := 500, currency := "usd", created := 1700000000,
        status := "succeeded", receipt_email := some "receipts@example.com" } }

theorem strSubPrefixOf_self_append (pat rest : List Char) :
    strSubPrefixOf pat (pat ++ rest) = true := by
  induction pat with
  | nil => rfl
  | cons a as ih => simp [strSubPrefixOf, ih]

theorem hasSubList_self_append (pat rest : List Char) :
    hasSubList pat (pat ++ rest) = true := by
  cases pat with
  | nil => cases rest <;> simp [hasSubList, strSubPrefixOf]
  | cons a as =>
    have h := strSubPrefixOf_self_append (a :: as) rest
    simp only [List.cons_append] at h
    simp [hasSubList, h]

theorem hasSubList_append_left (pat s1 s2 : List Char)
    (h : hasSubList pat s2 = true) : hasSubList pat (s1 ++ s2) = true := by
  induction s1 with
  | nil => simpa using h
  | cons c cs ih => simp [hasSubList, ih]

theorem containsSubstr_append_placeholder (u q : String) :
    containsSubstr (u ++ q ++ checkoutSessionIdPlaceholder)
      checkoutSessionIdPlaceholder = true := by
  unfold containsSubstr
  rw [String.data_append, String.data_append]
  rw [List.append_assoc]
  exact hasSubList_append_left _ _ _
    (hasSubList_append_left _ _ _
      (by simpa using hasSubList_self_append checkoutSessionIdPlaceholder.data []))

theorem getField_map_assign (fields : List (String × JsValue)) (key : String)
    (v : JsValue) (key' : String) (h : key' ≠ key) :
    getField (fields.map (fun p => if p.1 = key then (key, v) else p)) key' =
      getField fields key' := by
  have hkk : ¬(key = key') := fun he => h he.symm
  induction fields with
  | nil => rfl
  | cons p rest ih =>
    rw [List.map_cons]
    by_cases hp : p.1 = key
    · have hne : ¬(p.1 = key') := by
        rw [hp]
        exact hkk
      rw [if_pos hp]
      simp only [getField]
      rw [if_neg hkk, if_neg hne, ih]
    · rw [if_neg hp]
      simp only [getField]
      rw [ih]

theorem getField_append_single_ne (fields : List (String × JsValue))
    (key : String) (v : JsValue) (key' : String) (h : key' ≠ key) :
    getField (fields ++ [(key, v)]) key' = getField fields key' := by
  have hkk : ¬(key = key') := fun he => h he.symm
  induction fields with
  | nil =>
    simp only [List.nil_append, getField]
    rw [if_neg hkk]
  | cons p rest ih =>
    rw [List.cons_append]
    simp only [getField]
    rw [ih]

theorem getField_setField_ne (fields : List (String × JsValue)) (key : String)
    (v : JsValue) (key' : String) (h : key' ≠ key) :
    getField (setField fields key v) key' = getField fields key' := by
  unfold setField
  by_cases hany : key ∈ fields.map Prod.fst
  · rw [if_pos hany]
    exact getField_map_assign fields key v key' h
  · rw [if_neg hany]
    exact getField_append_single_ne fields key v key' h

theorem getField_spreadFields_of_not_mem (base extra : List (String × JsValue))
    (key : String) (h : key ∉ extra.map Prod.fst) :
    getField (spreadFields base extra) key = getField base key := by
  induction extra generalizing base with
  | nil => rfl
  | cons p rest ih =>
    simp only [List.map_cons, List.mem_cons, not_or] at h
    obtain ⟨h1, h2⟩ := h
    cases p with
    | mk k v =>
      rw [spreadFields, ih (setField base k v) h2]
      exact getField_setField_ne base k v key h1

/-- C8: every error kind carries a fixed status code: 422 for the
missing-parameter kind and 400 for the five other kinds; the base class
default of 500 exists but is taken by none of the six subclass
constructors, each of which passes an explicit code. -/
theorem errorKinds_fixed_status_codes (m : String) :
    (mkStripeInitializationError m).code = 400 ∧
    (mkMissingRequiredParameterError m).code = 422 ∧
    (mkCheckoutSessionCreationError m).code = 400 ∧
    (mkSessionRetrievalError m).code = 400 ∧
    (mkWebhookSignatureVerificationError m).code = 400 ∧
    (mkWebhookProcessingError m).code = 400 ∧
    (CustomError.makeDefault m).code = 500 ∧
    (mkStripeInitializationError m).code ≠ 500 ∧
    (mkMissingRequiredParameterError m).code ≠ 500 ∧
    (mkCheckoutSessionCreationError m).code ≠ 500 ∧
    (mkSessionRetrievalError m).code ≠ 500 ∧
    (mkWebhookSignatureVerificationError m).code ≠ 500 ∧
    (mkWebhookProcessingError m).code ≠ 500 := by
  refine ⟨rfl, rfl, rfl, rfl, rfl, rfl, rfl, ?_, ?_, ?_, ?_, ?_, ?_⟩ <;>
    first
    | exact (by decide : (400 : Nat) ≠ 500)
    | exact (by decide : (422 : Nat) ≠ 500)

/-- C10: each public operation, in state-passing form, returns the service
state unchanged whether it succeeds or fails: the stripe client and
webhookSecret fields are assigned only in the constructor. -/
theorem publicOps_leave_state_unchanged (svc : StripeService)
    (input : CreateCheckoutSessionInput) (uuid : String)
    (ginput : GetCheckoutSessionInput) (payload signature : String) :
    (svc.createCheckoutSessionS input uuid).2 = svc ∧
    (svc.getCheckoutSessionS ginput).2 = svc ∧
    (svc.handleWebhookS payload signature).2 = svc :=
  ⟨rfl, rfl, rfl⟩

/-- C2: whenever one of the four required fields of a
createCheckoutSession input is falsy, the try body throws
MissingRequiredParameterError, but the caller observes a
CheckoutSessionCreationError: the catch block of the same operation
re-wraps the internal validation error. -/
theorem createCheckoutSession_missing_field_wrapped (svc : StripeService)
    (input : CreateCheckoutSessionInput) (uuid : String)
    (h : input.amount = 0 ∨ input.currency = "" ∨ input.successUrl = "" ∨ input.cancelUrl = "") :
    createCheckoutSessionTry svc input uuid =
      .error (.thrown (mkMissingRequiredParameterError
        "Amount, currency, successUrl, and cancelUrl are required.")) ∧
    svc.createCheckoutSession input uuid =
      .error (mkCheckoutSessionCreationError "Failed to create checkout session.") ∧
    (mkCheckoutSessionCreationError "Failed to create checkout session.").name =
      "CheckoutSessionCreationError" ∧
    (mkCheckoutSessionCreationError "Failed to create checkout session.").name ≠
      "MissingRequiredParameterError" := by
  have h1 : createCheckoutSessionTry svc input uuid =
      .error (.thrown (mkMissingRequiredParameterError
        "Amount, currency, successUrl, and cancelUrl are required.")) := by
    unfold createCheckoutSessionTry
    rw [if_pos h]
  refine ⟨h1, ?_, rfl, by decide⟩
  unfold StripeService.createCheckoutSession
  rw [h1]

/-- C7: retrieving with an empty sessionId throws MissingRequiredParameterError
inside the try body and the caller observes SessionRetrievalError; for a
non-empty sessionId the processor retrieval result is returned unchanged. -/
theorem getCheckoutSession_spec (svc : StripeService)
    (input : GetCheckoutSessionInput) :
    (input.sessionId = "" →
      getCheckoutSessionTry svc input =
        .error (.thrown (mkMissingRequiredParameterError "Session ID is required.")) ∧
      svc.getCheckoutSession input =
        .error (mkSessionRetrievalError "Failed to retrieve session.") ∧
      (mkSessionRetrievalError "Failed to retrieve session.").name =
        "SessionRetrievalError") ∧
    (∀ session : CheckoutSession, input.sessionId ≠ "" →
      svc.stripe.sessionsRetrieve input.sessionId = .ok session →
      svc.getCheckoutSession input = .ok session) := by
  constructor
  · intro h
    have h1 : getCheckoutSessionTry svc input =
        .error (.thrown (mkMissingRequiredParameterError "Session ID is required.")) := by
      unfold getCheckoutSessionTry
      rw [if_pos h]
    refine ⟨h1, ?_, rfl⟩
    unfold StripeService.getCheckoutSession
    rw [h1]
  · intro session hne hok
    unfold StripeService.getCheckoutSession getCheckoutSessionTry
    rw [if_neg hne, hok]

/-- C1: whenever the processor signature verification fails, handleWebhook
fails with a WebhookSignatureVerificationError; the dispatch phase is never
entered, so no per-event handler is invoked (empty log) and no event is
returned. -/
theorem handleWebhook_sigfail_no_dispatch (svc : StripeService)
    (payload signature msg : String)
    (h : svc.stripe.constructEvent payload signature svc.webhookSecret = .error msg) :
    svc.handleWebhook payload signature =
      (.error (mkWebhookSignatureVerificationError
        ("Webhook signature verification failed: " ++ msg)), []) ∧
    (mkWebhookSignatureVerificationError
      ("Webhook signature verification failed: " ++ msg)).name =
        "WebhookSignatureVerificationError" := by
  unfold StripeService.handleWebhook
  rw [h]
  exact ⟨rfl, rfl⟩

theorem handleWebhook_sigfail_no_dispatch_witness :
    StripeService.handleWebhook (demoService badSigClient) "raw-payload" "t=1,v1=bad" =
      (.error (mkWebhookSignatureVerificationError
        ("Webhook signature verification failed: " ++ "No signatures found")), []) :=
  (handleWebhook_sigfail_no_dispatch (demoService badSigClient) "raw-payload"
    "t=1,v1=bad" "No signatures found" rfl).1

/-- C3: a successfully verified event whose type is none of the five
recognized types makes handleWebhook return none with no error; only the
unhandled-type log entry of the default arm is produced. -/
theorem handleWebhook_unrecognized_returns_none (svc : StripeService)
    (payload signature : String) (ev : StripeWebhookEvent)
    (hok : svc.stripe.constructEvent payload signature svc.webhookSecret = .ok ev)
    (hun : ev.type ∉ recognizedEventTypes) :
    svc.handleWebhook payload signature = (.ok none, [.unhandledType ev.type]) := by
  simp only [recognizedEventTypes, List.mem_cons, List.not_mem_nil, or_false,
    not_or] at hun
  obtain ⟨h1, h2, h3, h4, h5⟩ := hun
  unfold StripeService.handleWebhook
  rw [hok]
  unfold processWebhookEvent
  simp [h1, h2, h3, h4, h5]

theorem handleWebhook_unrecognized_returns_none_witness :
    StripeService.handleWebhook (demoService (eventClient invoicePaidEvent)) "p" "s" =
      (.ok none, [.unhandledType "invoice.paid"]) :=
  handleWebhook_unrecognized_returns_none (demoService (eventClient invoicePaidEvent))
    "p" "s" invoicePaidEvent rfl (by decide)

/-- C4: a successfully verified event whose type is one of the five
recognized types is returned by handleWebhook unchanged: the same event
value, hence the same type tag and the same data fields. -/
theorem handleWebhook_recognized_returns_event (svc : StripeService)
    (payload signature : String) (ev : StripeWebhookEvent)
    (hok : svc.stripe.constructEvent payload signature svc.webhookSecret = .ok ev)
    (hrec : ev.type ∈ recognizedEventTypes) :
    (svc.handleWebhook payload signature).1 = .ok (some ev) := by
  simp only [recognizedEventTypes, List.mem_cons, List.not_mem_nil, or_false] at hrec
  unfold StripeService.handleWebhook
  rw [hok]
  unfold processWebhookEvent
  rcases hrec with h | h | h | h | h <;>
    simp [h, handlePaymentIntentCreated, handlePaymentIntentSucceeded,
      handleChargeUpdated, handleChargeSucceeded, handleCheckoutSessionCompleted]

theorem handleWebhook_recognized_returns_event_witness :
    (StripeService.handleWebhook (demoService (eventClient piSucceededEvent)) "p" "s").1 =
      .ok (some piSucceededEvent) :=
  handleWebhook_recognized_returns_event (demoService (eventClient piSucceededEvent))
    "p" "s" piSucceededEvent rfl (by decide)

/-- C5 counterexample: a successful createCheckoutSession call on the
stated concrete input (amount 500, currency usd, the two urls) whose
returned url is the processor-assigned session url and does not contain
the literal placeholder; the code merely passes through whatever url the
processor returns, so the claim fails as stated. -/
theorem createCheckoutSession_url_placeholder_cex :
    StripeService.createCheckoutSession (demoService okClient) demoInput "u-1" =
      .ok { url := "https://pay.example/s/abc", sessionId := "cs_test_123" } ∧
    containsSubstr "https://pay.example/s/abc" checkoutSessionIdPlaceholder = false :=
  ⟨rfl, by decide⟩

/-- C5 amended: for every valid input, the success_url of the request sent
to the processor is successUrl with the `?session_id={CHECKOUT_SESSION_ID}`
template appended, hence contains the literal placeholder; the returned url
and sessionId are the processor-assigned session url and id passed through
unchanged. -/
theorem createCheckoutSession_placeholder_in_request (svc : StripeService)
    (input : CreateCheckoutSessionInput) (uuid : String) (session : CheckoutSession)
    (hval : ¬(input.amount = 0 ∨ input.currency = "" ∨
      input.successUrl = "" ∨ input.cancelUrl = ""))
    (hok : svc.stripe.sessionsCreate (buildSessionCreateParams input uuid) = .ok session) :
    (buildSessionCreateParams input uuid).success_url =
      input.successUrl ++ "?session_id=" ++ checkoutSessionIdPlaceholder ∧
    containsSubstr (buildSessionCreateParams input uuid).success_url
      checkoutSessionIdPlaceholder = true ∧
    svc.createCheckoutSession input uuid =
      .ok { url := session.url, sessionId := session.id } := by
  refine ⟨rfl, containsSubstr_append_placeholder input.successUrl "?session_id=", ?_⟩
  unfold StripeService.createCheckoutSession createCheckoutSessionTry
  rw [if_neg hval, hok]

theorem createCheckoutSession_placeholder_in_request_witness :
    containsSubstr (buildSessionCreateParams demoInput "u-1").success_url
      checkoutSessionIdPlaceholder = true ∧
    StripeService.createCheckoutSession (demoService okClient) demoInput "u-1" =
      .ok { url := demoSession.url, sessionId := demoSession.id } := by
  exact ⟨(createCheckoutSession_placeholder_in_request (demoService okClient)
      demoInput "u-1" demoSession (by decide) rfl).2.1,
    (createCheckoutSession_placeholder_in_request (demoService okClient)
      demoInput "u-1" demoSession (by decide) rfl).2.2⟩

/-- C6 counterexample: the rest-spread comes after `quantity: 1` inside
the line-item object literal, so on this valid input whose extra line-item
field is named quantity the request sent to the processor carries quantity
3, not the claimed fixed 1 (JS last-wins spread override). -/
theorem createCheckoutSession_request_shape_cex :
    ¬(demoOverrideInput.amount = 0 ∨ demoOverrideInput.currency = "" ∨
      demoOverrideInput.successUrl = "" ∨ demoOverrideInput.cancelUrl = "") ∧
    (buildSessionCreateParams demoOverrideInput "u-4").line_items =
      [lineItemObject demoOverrideInput] ∧
    getField (lineItemObject demoOverrideInput) "quantity" =
      some (JsValue.num 3) ∧
    getField (lineItemObject demoOverrideInput) "quantity" ≠
      some (JsValue.num 1) := by
  refine ⟨by decide, rfl, by decide, by decide⟩

/-- C6 amended: for every valid input whose extra line-item fields are not
named quantity or price_data (in particular every input matching the
declared interface, which has no extra fields), the request built for the
processor has card payment method, one-time payment mode, and exactly one
line-item object whose price_data carries the input currency, the
hard-coded placeholder product name and unit_amount equal to the input
amount, and whose quantity is 1, with the extra fields spread into the
same object; an extra field named quantity or price_data instead overrides
the named field (last-wins spread). The try body calls the processor on
exactly this request. -/
theorem createCheckoutSession_request_shape (svc : StripeService)
    (input : CreateCheckoutSessionInput) (uuid : String)
    (hval : ¬(input.amount = 0 ∨ input.currency = "" ∨
      input.successUrl = "" ∨ input.cancelUrl = ""))
    (hq : "quantity" ∉ input.otherLineItemData.map Prod.fst)
    (hpd : "price_data" ∉ input.otherLineItemData.map Prod.fst) :
    (buildSessionCreateParams input uuid).payment_method_types = ["card"] ∧
    (buildSessionCreateParams input uuid).mode = "payment" ∧
    (buildSessionCreateParams input uuid).line_items = [lineItemObject input] ∧
    (buildSessionCreateParams input uuid).line_items.length = 1 ∧
    getField (lineItemObject input) "price_data" = some (priceDataValue input) ∧
    getField (lineItemObject input) "quantity" = some (JsValue.num 1) ∧
    priceDataValue input =
      JsValue.priceData
        { currency := input.currency,
          product_name := "Your Product Name",
          unit_amount := input.amount } ∧
    createCheckoutSessionTry svc input uuid =
      (match svc.stripe.sessionsCreate (buildSessionCreateParams input uuid) with
       | .error e => .error (.sdk e)
       | .ok session => .ok { url := session.url, sessionId := session.id }) := by
  refine ⟨rfl, rfl, rfl, rfl, ?_, ?_, rfl, ?_⟩
  · unfold lineItemObject
    rw [getField_spreadFields_of_not_mem _ _ _ hpd]
    rfl
  · unfold lineItemObject
    rw [getField_spreadFields_of_not_mem _ _ _ hq]
    rfl
  · unfold createCheckoutSessionTry
    rw [if_neg hval]

theorem createCheckoutSession_request_shape_witness :
    getField (lineItemObject demoInputExtra) "price_data" =
      some (priceDataValue demoInputExtra) ∧
    getField (lineItemObject demoInputExtra) "quantity" =
      some (JsValue.num 1) :=
  ⟨(createCheckoutSession_request_shape (demoService okClient) demoInputExtra "u-2"
      (by decide) (by decide) (by decide)).2.2.2.2.1,
   (createCheckoutSession_request_shape (demoService okClient) demoInputExtra "u-2"
      (by decide) (by decide) (by decide)).2.2.2.2.2.1⟩

/-- C9: validation only tests truthiness: an amount of 0 is rejected (the
caller observes the wrapped creation error), while every strictly negative
amount passes validation and the processor is called with the built request
whose single line-item object carries a price_data with unit_amount equal
to that negative amount (stated for inputs whose extra line-item fields do
not override price_data, in particular every input of the declared
interface). -/
theorem createCheckoutSession_no_positivity_check (svc : StripeService)
    (input : CreateCheckoutSessionInput) (uuid : String)
    (hneg : input.amount < 0) (hc : input.currency ≠ "")
    (hs : input.successUrl ≠ "") (hx : input.cancelUrl ≠ "")
    (hpd : "price_data" ∉ input.otherLineItemData.map Prod.fst) :
    createCheckoutSessionTry svc input uuid =
      (match svc.stripe.sessionsCreate (buildSessionCreateParams input uuid) with
       | .error e => .error (.sdk e)
       | .ok session => .ok { url := session.url, sessionId := session.id }) ∧
    (buildSessionCreateParams input uuid).line_items = [lineItemObject input] ∧
    getField (lineItemObject input) "price_data" = some (priceDataValue input) ∧
    priceDataValue input =
      JsValue.priceData
        { currency := input.currency,
          product_name := "Your Product Name",
          unit_amount := input.amount } ∧
    StripeService.createCheckoutSession svc { input with amount := 0 } uuid =
      .error (mkCheckoutSessionCreationError "Failed to create checkout session.") := by
  have hval : ¬(input.amount = 0 ∨ input.currency = "" ∨
      input.successUrl = "" ∨ input.cancelUrl = "") := by
    push_neg
    exact ⟨by omega, hc, hs, hx⟩
  refine ⟨?_, rfl, ?_, rfl, ?_⟩
  · unfold createCheckoutSessionTry
    rw [if_neg hval]
  · unfold lineItemObject
    rw [getField_spreadFields_of_not_mem _ _ _ hpd]
    rfl
  · have h0 : createCheckoutSessionTry svc { input with amount := 0 } uuid =
        .error (.thrown (mkMissingRequiredParameterError
          "Amount, currency, successUrl, and cancelUrl are required.")) := by
      unfold createCheckoutSessionTry
      rw [if_pos (Or.inl rfl)]
    unfold StripeService.createCheckoutSession
    rw [h0]

theorem createCheckoutSession_no_positivity_check_witness :
    getField (lineItemObject demoNegInput) "price_data" =
      some (priceDataValue demoNegInput) ∧
    priceDataValue demoNegInput =
      JsValue.priceData
        { currency := "usd",
          product_name := "Your Product Name",
          unit_amount := -250 } :=
  ⟨(createCheckoutSession_no_positivity_check (demoService okClient) demoNegInput "u-3"
      (by decide) (by decide) (by decide) (by decide) (by decide)).2.2.1,
   (createCheckoutSession_no_positivity_check (demoService okClient) demoNegInput "u-3"
      (by decide) (by decide) (by decide) (by decide) (by decide)).2.2.2.1⟩

theorem createCheckoutSession_missing_field_wrapped_witness :
    StripeService.createCheckoutSession (demoService okClient)
      { amount := 0, currency := "usd", successUrl := "https://x/ok",
        cancelUrl := "https://x/cancel", otherLineItemData := [] } "u-1" =
      .error (mkCheckoutSessionCreationError "Failed to create checkout session.") :=
  (createCheckoutSession_missing_field_wrapped (demoService okClient)
    { amount := 0, currency := "usd", successUrl := "https://x/ok",
      cancelUrl := "https://x/cancel", otherLineItemData := [] } "u-1"
    (Or.inl rfl)).2.1

theorem getCheckoutSession_spec_witness :
    (StripeService.getCheckoutSession (demoService okClient) { sessionId := "" } =
      .error (mkSessionRetrievalError "Failed to retrieve session.")) ∧
    (StripeService.getCheckoutSession (demoService okClient) { sessionId := "cs_9" } =
      .ok { demoSession with id := "cs_9" }) :=
  ⟨((getCheckoutSession_spec (demoService okClient) { sessionId := "" }).1 rfl).2.1,
   (getCheckoutSession_spec (demoService okClient) { sessionId := "cs_9" }).2
     { demoSession with id := "cs_9" } (by decide) rfl⟩
